import Mathlib

/-
Verification of the microbiome dashboard (`microbiome_dashboard.py`).

Modelling conventions:
* Python strings are modelled as `List Char` (abbreviated `Str`).
* Python's `random.randint(a, b)` / `random.uniform(a, b)` draws are modelled
  as explicit parameters, constrained by hypotheses to the documented ranges.
* Python floats are modelled exactly: `round(x, 1)` (resp. `round(x, 2)`) of a
  rational value is modelled as the integer of tenths (resp. hundredths)
  obtained by rounding half-to-even, which is Python 3 `round` semantics.
  `rheDiv n d` is round-half-even of the exact rational `n / d`.
-/

abbrev Str := List Char

/-- Round-half-even of the rational `n / d` (for `d > 0`), i.e. the value of
Python's `round(n / d)` computed exactly.  Uses Euclidean div/mod so that for
`d > 0` the quotient is the floor and the remainder lies in `[0, d)`. -/
def rheDiv (n d : ℤ) : ℤ :=
  if 2 * Int.emod n d < d then Int.ediv n d
  else if d < 2 * Int.emod n d then Int.ediv n d + 1
  else if Int.emod (Int.ediv n d) 2 = 0 then Int.ediv n d else Int.ediv n d + 1

/-- The rounded value differs from the exact quotient by at most one half:
`2*n - d ≤ 2*d*(rheDiv n d) ≤ 2*n + d` whenever `d > 0`. -/
theorem rheDiv_bounds (n d : ℤ) (hd : 0 < d) :
    2 * n - d ≤ 2 * d * rheDiv n d ∧ 2 * d * rheDiv n d ≤ 2 * n + d := by
  have hdne : d ≠ 0 := ne_of_gt hd
  have h0 : 0 ≤ Int.emod n d := Int.emod_nonneg n hdne
  have h1 : Int.emod n d < d := Int.emod_lt_of_pos n hd
  have h2 : d * Int.ediv n d + Int.emod n d = n := Int.ediv_add_emod n d
  unfold rheDiv
  split_ifs <;> constructor <;> nlinarith [h0, h1, h2]

-- ===========================================================================
-- Taxonomy generation (`MicrobiomeAnalyzer.generate_taxonomy_data`)
-- ===========================================================================

/-- Record of one taxon as produced by the generator.  Before normalisation
`abundance` holds the raw `randint` draw (whole percents); after normalisation
it holds the rounded relative abundance in tenths of a percent (the model of
the Python float `round((a / total) * 100, 1)`). -/
structure TaxonRecord where
  name : Str
  abundance : ℤ
  color : Str
  deriving DecidableEq

/-- The eight `random.randint` draws of `generate_taxonomy_data`, one per
taxon, in source order. -/
structure TaxDraws where
  bacteroidetes : ℤ
  firmicutes : ℤ
  proteobacteria : ℤ
  actinobacteria : ℤ
  verrucomicrobia : ℤ
  fusobacteria : ℤ
  spirochaetes : ℤ
  other : ℤ
  deriving DecidableEq

/-- The ranges of the eight `randint` calls (both endpoints inclusive). -/
def DrawsInRange (d : TaxDraws) : Prop :=
  (25 ≤ d.bacteroidetes ∧ d.bacteroidetes ≤ 40) ∧
  (20 ≤ d.firmicutes ∧ d.firmicutes ≤ 35) ∧
  (10 ≤ d.proteobacteria ∧ d.proteobacteria ≤ 20) ∧
  (5 ≤ d.actinobacteria ∧ d.actinobacteria ≤ 15) ∧
  (2 ≤ d.verrucomicrobia ∧ d.verrucomicrobia ≤ 8) ∧
  (1 ≤ d.fusobacteria ∧ d.fusobacteria ≤ 5) ∧
  (1 ≤ d.spirochaetes ∧ d.spirochaetes ≤ 4) ∧
  (2 ≤ d.other ∧ d.other ≤ 8)

instance (d : TaxDraws) : Decidable (DrawsInRange d) := by
  unfold DrawsInRange; exact inferInstance

/-- The `taxa_data` list as built in the source, with the raw draws in the
`abundance` fields. -/
def raw_taxa (d : TaxDraws) : List TaxonRecord :=
  [⟨"Bacteroidetes".toList, d.bacteroidetes, "#22d3ee".toList⟩,
   ⟨"Firmicutes".toList, d.firmicutes, "#f472b6".toList⟩,
   ⟨"Proteobacteria".toList, d.proteobacteria, "#4ade80".toList⟩,
   ⟨"Actinobacteria".toList, d.actinobacteria, "#fb923c".toList⟩,
   ⟨"Verrucomicrobia".toList, d.verrucomicrobia, "#a78bfa".toList⟩,
   ⟨"Fusobacteria".toList, d.fusobacteria, "#34d399".toList⟩,
   ⟨"Spirochaetes".toList, d.spirochaetes, "#60a5fa".toList⟩,
   ⟨"Other".toList, d.other, "#94a3b8".toList⟩]

/-- `total = sum(t['abundance'] for t in taxa_data)`. -/
def total (d : TaxDraws) : ℤ := ((raw_taxa d).map TaxonRecord.abundance).sum

/-- The normalisation loop: each abundance becomes
`round((abundance / total) * 100, 1)`, stored in tenths of a percent. -/
def generate_taxonomy_data (d : TaxDraws) : List TaxonRecord :=
  (raw_taxa d).map fun t => { t with abundance := rheDiv (1000 * t.abundance) (total d) }

/-- Sum of the normalised abundances of one taxonomy response, in tenths of a
percent (so the spec's `100.0` corresponds to `1000`). -/
def sumAbundance (d : TaxDraws) : ℤ :=
  ((generate_taxonomy_data d).map TaxonRecord.abundance).sum

/-- A concrete admissible draw on which the rounded abundances sum to 99.8. -/
def cexDraws : TaxDraws := ⟨25, 20, 10, 5, 2, 1, 1, 5⟩

/-- Another concrete admissible draw, used for witnesses. -/
def someDraws : TaxDraws := ⟨30, 25, 15, 10, 5, 3, 2, 5⟩

-- ===========================================================================
-- Decimal digit strings (model of Python `str(n)` for a natural number)
-- ===========================================================================

/-- The character of a single decimal digit. -/
def digitChar (k : ℕ) : Char := Char.ofNat (48 + k)

/-- Decimal representation of a natural number, as `str(n)` produces it. -/
def intStr (n : ℕ) : Str :=
  if n = 0 then ['0'] else ((Nat.digits 10 n).reverse).map digitChar

-- ===========================================================================
-- Upload handler (`upload_fastq`)
-- ===========================================================================

/-- The allow-list of the `endswith` check in `upload_fastq`. -/
def allowed_extensions : List Str :=
  [".fastq".toList, ".fq".toList, ".fastq.gz".toList, ".fq.gz".toList]

/-- Python `name.endswith(tuple(exts))`: true iff some listed extension is a
suffix of `name` (literal, case-sensitive comparison). -/
def endsWithAny (name : Str) (exts : List Str) : Bool :=
  exts.any fun e => List.isSuffixOf e name

/-- An uploaded multipart file: its name and size. -/
structure UploadedFile where
  name : Str
  size : ℕ
  deriving DecidableEq

/-- The session entry `request.session['uploaded_file']`. -/
structure UploadRecord where
  name : Str
  size : ℕ
  upload_time : Str
  deriving DecidableEq

/-- The JSON responses `upload_fastq` can produce. -/
inductive UploadResponse where
  | success (file_name : Str) (file_size : ℕ) (processing_id : Str)
  | error (msg : Str) (status : ℕ)
  deriving DecidableEq

/-- Whether a response is the error shape. -/
def UploadResponse.isError : UploadResponse → Bool
  | .error _ _ => true
  | .success _ _ _ => false

/-- The `upload_fastq` view.  Inputs: the request method, the optional
multipart field `fastq_file`, the current session entry, the
`random.randint(10000, 99999)` draw, and the `datetime.now().isoformat()`
string.  Returns the response together with the session entry after the
request. -/
def upload_fastq (method : Str) (fastq_file : Option UploadedFile)
    (session : Option UploadRecord) (rand : ℕ) (now : Str) :
    UploadResponse × Option UploadRecord :=
  if method = "POST".toList then
    match fastq_file with
    | some uploaded_file =>
        if !(endsWithAny uploaded_file.name allowed_extensions) then
          (.error "Please upload a valid FASTQ file".toList 400, session)
        else
          (.success uploaded_file.name uploaded_file.size ("proc_".toList ++ intStr rand),
           some ⟨uploaded_file.name, uploaded_file.size, now⟩)
    | none => (.error "No file uploaded".toList 400, session)
  else (.error "No file uploaded".toList 400, session)

-- ===========================================================================
-- Processing status handler (`processing_status`)
-- ===========================================================================

/-- One pipeline step of the simulated status report. -/
structure Step where
  name : Str
  status : Str
  progress : ℕ
  deriving DecidableEq

/-- The JSON object returned by `processing_status`. -/
structure StatusResponse where
  processing_id : Option Str
  overall_progress : ℕ
  status : Str
  steps : List Step
  deriving DecidableEq

/-- The fixed `steps` list of the handler. -/
def processing_steps : List Step :=
  [⟨"Quality Control (QC)".toList, "completed".toList, 100⟩,
   ⟨"Adapter & Quality Trimming".toList, "completed".toList, 100⟩,
   ⟨"Taxonomic Classification".toList, "completed".toList, 100⟩,
   ⟨"Abundance Calculation".toList, "completed".toList, 100⟩,
   ⟨"AI Novelty Detection".toList, "completed".toList, 100⟩,
   ⟨"Generating Visualizations".toList, "completed".toList, 100⟩]

/-- The `processing_status` view: `id` is `request.GET.get('id')` (absent is
`none`); the identifier is echoed back and nothing else depends on it. -/
def processing_status (id : Option Str) : StatusResponse :=
  { processing_id := id, overall_progress := 100, status := "completed".toList,
    steps := processing_steps }

-- ===========================================================================
-- Novelty data (`MicrobiomeAnalyzer.generate_novelty_data`)
-- ===========================================================================

/-- One novelty cluster record. -/
structure NoveltyCluster where
  cluster_id : Str
  confidence : ℚ
  similarity : ℚ
  potential_species : Str
  abundance : ℚ
  unique_features : List Str
  deriving DecidableEq

/-- The static list returned by `generate_novelty_data`; it takes no input and
reads no state, so every call yields this same value. -/
def generate_novelty_data : List NoveltyCluster :=
  [⟨"NC001".toList, 0.92, 0.34, "Unknown Bacteroidetes sp.".toList, 2.3,
     ["Novel metabolic pathway".toList, "16S rRNA variation".toList]⟩,
   ⟨"NC002".toList, 0.87, 0.41, "Unclassified Firmicutes".toList, 1.8,
     ["Antimicrobial resistance genes".toList, "Biofilm formation".toList]⟩,
   ⟨"NC003".toList, 0.79, 0.28, "Novel Actinobacteria".toList, 0.9,
     ["Secondary metabolite production".toList, "Extreme pH tolerance".toList]⟩]

-- ===========================================================================
-- Heatmap generation (`MicrobiomeAnalyzer.generate_heatmap_data`)
-- ===========================================================================

/-- Round-half-even of an arbitrary rational (Python `round(q)` exactly). -/
def rheRat (q : ℚ) : ℤ := rheDiv q.num (q.den : ℤ)

/-- `samples = [f'Sample_{i+1}' for i in range(8)]`. -/
def sample_names : List Str := (List.range 8).map fun i => "Sample_".toList ++ intStr (i + 1)

/-- The fixed taxa of the heatmap. -/
def heatmap_taxa : List Str :=
  ["Bacteroides".toList, "Lactobacillus".toList, "Bifidobacterium".toList, "E.coli".toList,
   "Clostridium".toList, "Akkermansia".toList, "Prevotella".toList, "Enterococcus".toList]

/-- One heatmap row; `values` holds the rounded readings in hundredths (the
model of `round(random.uniform(0.1, 10.0), 2)`). -/
structure HeatmapRow where
  taxon : Str
  values : List ℤ
  deriving DecidableEq

/-- The JSON object returned by `get_heatmap_data`. -/
structure HeatmapResponse where
  samples : List Str
  data : List HeatmapRow
  deriving DecidableEq

/-- The heatmap generator; `u i j` is the `random.uniform(0.1, 10.0)` draw for
row `i` and sample `j`, and each stored value is `round(u i j, 2)` in
hundredths. -/
def generate_heatmap_data (u : Fin 8 → Fin 8 → ℚ) : HeatmapResponse :=
  { samples := sample_names
    data := (List.finRange 8).map fun i =>
      { taxon := heatmap_taxa.getD i.val []
        values := (List.finRange 8).map fun j => rheRat (100 * u i j) } }

/-- A concrete all-ones draw for the heatmap witness. -/
def uWitness : Fin 8 → Fin 8 → ℚ := fun _ _ => 1

-- ===========================================================================
-- Report download handler (`download_report`)
-- ===========================================================================

/-- Decimal rendering of a value held in tenths, as Python prints the
one-decimal float (e.g. tenths `362` prints as `36.2`). -/
def fmtTenthsNat (m : ℕ) : Str := intStr (m / 10) ++ ('.' :: intStr (m % 10))

/-- Signed version of `fmtTenthsNat` for the integer-of-tenths model. -/
def fmtTenths (k : ℤ) : Str :=
  if k < 0 then '-' :: fmtTenthsNat (-k).toNat else fmtTenthsNat k.toNat

/-- The CSV header row. -/
def csv_header : Str := "Sample,Taxon,Abundance".toList

/-- One CSV data row: `f"Sample_1,{taxa['name']},{taxa['abundance']}"`. -/
def csv_row (t : TaxonRecord) : Str :=
  "Sample_1,".toList ++ (t.name ++ (',' :: fmtTenths t.abundance))

/-- All rows of the CSV document: the header followed by one row per taxon of
a freshly generated taxonomy set. -/
def csv_rows (d : TaxDraws) : List Str :=
  csv_header :: (generate_taxonomy_data d).map csv_row

/-- The CSV body: every row followed by a newline, concatenated (exactly the
string built in the source). -/
def csv_content (d : TaxDraws) : Str :=
  ((csv_rows d).map fun r => r ++ ['\n']).flatten

/-- Body of a report response: either text (CSV body or error message) or the
generated PDF document, whose drawing commands the claims never inspect. -/
inductive ReportBody where
  | text (s : Str)
  | pdfDocument
  deriving DecidableEq

/-- An HTTP response of `download_report`. -/
structure ReportResponse where
  status : ℕ
  contentType : Str
  body : ReportBody
  disposition : Option Str
  deriving DecidableEq

/-- The plain-text message returned when reportlab is missing. -/
def reportlab_error_msg : Str :=
  "PDF generation failed. Please install 'reportlab' via 'pip install reportlab'.".toList

/-- The non-CSV (`else`) branch of `download_report`: a 500 plain-text error
when reportlab is unavailable, otherwise the PDF attachment. -/
def pdf_branch (reportlab_available : Bool) : ReportResponse :=
  if !reportlab_available then
    { status := 500, contentType := "text/plain".toList,
      body := .text reportlab_error_msg, disposition := none }
  else
    { status := 200, contentType := "application/pdf".toList, body := .pdfDocument,
      disposition := some "attachment; filename=\"microbiome_analysis.pdf\"".toList }

/-- The `download_report` view: `ty` is `request.GET.get('type')` (absent is
`none`, defaulted to `"pdf"`); only the exact value `"csv"` selects the CSV
branch. -/
def download_report (ty : Option Str) (reportlab_available : Bool) (d : TaxDraws) :
    ReportResponse :=
  let report_type := ty.getD "pdf".toList
  if report_type = "csv".toList then
    { status := 200, contentType := "text/csv".toList, body := .text (csv_content d),
      disposition := some "attachment; filename=\"microbiome_analysis.csv\"".toList }
  else pdf_branch reportlab_available

-- ===========================================================================
-- Helper lemmas
-- ===========================================================================

theorem intStr_length_five (n : ℕ) (h1 : 10000 ≤ n) (h2 : n ≤ 99999) :
    (intStr n).length = 5 := by
  have hn : n ≠ 0 := by omega
  have hlog : Nat.log 10 n = 4 := by
    apply Nat.log_eq_of_pow_le_of_lt_pow
    · norm_num
      omega
    · norm_num
      omega
  rw [intStr, if_neg hn, List.length_map, List.length_reverse,
    Nat.digits_len 10 n (by norm_num) hn, hlog]

theorem intStr_all_digits (n : ℕ) : (intStr n).all Char.isDigit = true := by
  rw [intStr]
  split
  · decide
  · rw [List.all_eq_true]
    intro c hc
    rw [List.mem_map] at hc
    obtain ⟨k, hk, rfl⟩ := hc
    rw [List.mem_reverse] at hk
    have hk10 : k < 10 := Nat.digits_lt_base (by norm_num) hk
    unfold digitChar
    interval_cases k <;> decide

theorem newline_not_mem_intStr (n : ℕ) : '\n' ∉ intStr n := by
  intro hmem
  have h := intStr_all_digits n
  rw [List.all_eq_true] at h
  exact absurd (h '\n' hmem) (by decide)

theorem newline_not_mem_fmtTenths (k : ℤ) : '\n' ∉ fmtTenths k := by
  intro hmem
  rw [fmtTenths] at hmem
  have hnat : ∀ m : ℕ, '\n' ∉ fmtTenthsNat m := by
    intro m hm
    rw [fmtTenthsNat, List.mem_append, List.mem_cons] at hm
    rcases hm with h | h | h
    · exact newline_not_mem_intStr _ h
    · exact absurd h (by decide)
    · exact newline_not_mem_intStr _ h
  split at hmem
  · rw [List.mem_cons] at hmem
    rcases hmem with h | h
    · exact absurd h (by decide)
    · exact hnat _ h
  · exact hnat _ hmem

theorem count_flatten_eq {α : Type} [DecidableEq α] (a : α) (l : List (List α)) :
    l.flatten.count a = (l.map (List.count a)).sum := by
  induction l with
  | nil => rfl
  | cons x xs ih => simp [List.flatten_cons, List.count_append, ih]

/-- Lower bound for round-half-even over ℚ: any integer below the argument is
below the result. -/
theorem le_rheRat (a : ℤ) (q : ℚ) (h : (a : ℚ) ≤ q) : a ≤ rheRat q := by
  have hdpos : (0 : ℤ) < (q.den : ℤ) := by exact_mod_cast q.den_pos
  have hb := (rheDiv_bounds q.num (q.den : ℤ) hdpos).1
  have hbq : (2 * q.num - (q.den : ℤ) : ℚ) ≤ 2 * ((q.den : ℤ) : ℚ) * (rheRat q : ℚ) := by
    rw [rheRat]; exact_mod_cast hb
  have hdenq : (0 : ℚ) < ((q.den : ℤ) : ℚ) := by exact_mod_cast hdpos
  have hden0 : ((q.den : ℚ)) ≠ 0 := by positivity
  have hnum : (q.num : ℚ) = q * ((q.den : ℤ) : ℚ) := by
    push_cast
    have h0 := Rat.num_div_den q
    rw [div_eq_iff hden0] at h0
    exact h0
  have hr : q - 1 / 2 ≤ (rheRat q : ℚ) := by nlinarith [hbq, hnum, hdenq]
  have h2 : (a : ℚ) - 1 < (rheRat q : ℚ) := by linarith
  have h3 : a - 1 < rheRat q := by exact_mod_cast h2
  omega

/-- Upper bound for round-half-even over ℚ: any integer above the argument is
above the result. -/
theorem rheRat_le (a : ℤ) (q : ℚ) (h : q ≤ (a : ℚ)) : rheRat q ≤ a := by
  have hdpos : (0 : ℤ) < (q.den : ℤ) := by exact_mod_cast q.den_pos
  have hb := (rheDiv_bounds q.num (q.den : ℤ) hdpos).2
  have hbq : 2 * ((q.den : ℤ) : ℚ) * (rheRat q : ℚ) ≤ (2 * q.num + (q.den : ℤ) : ℚ) := by
    rw [rheRat]; exact_mod_cast hb
  have hdenq : (0 : ℚ) < ((q.den : ℤ) : ℚ) := by exact_mod_cast hdpos
  have hden0 : ((q.den : ℚ)) ≠ 0 := by positivity
  have hnum : (q.num : ℚ) = q * ((q.den : ℤ) : ℚ) := by
    push_cast
    have h0 := Rat.num_div_den q
    rw [div_eq_iff hden0] at h0
    exact h0
  have hr : (rheRat q : ℚ) ≤ q + 1 / 2 := by nlinarith [hbq, hnum, hdenq]
  have h2 : (rheRat q : ℚ) < (a : ℚ) + 1 := by linarith
  have h3 : rheRat q < a + 1 := by exact_mod_cast h2
  omega

/-- A suffix of `b ++ c` no longer than `c` is a suffix of `c`. -/
theorem suffix_of_append_of_length_le {α : Type} {a b c : List α}
    (h : a <:+ b ++ c) (hl : a.length ≤ c.length) : a <:+ c := by
  obtain ⟨t, ht⟩ := h
  rcases List.append_eq_append_iff.mp ht with ⟨m, _, ha⟩ | ⟨m, _, hc⟩
  · have hlm : m.length = 0 := by
      have hla := congrArg List.length ha
      rw [List.length_append] at hla
      omega
    rw [List.eq_nil_of_length_eq_zero hlm, List.nil_append] at ha
    rw [ha]
  · exact ⟨m, hc.symm⟩

/-- If `a` is a suffix of `b ++ c` at least as long as `c`, then `c` is a
suffix of `a`. -/
theorem append_suffix_of_length_le {α : Type} {a b c : List α}
    (h : a <:+ b ++ c) (hl : c.length ≤ a.length) : c <:+ a := by
  obtain ⟨t, ht⟩ := h
  rcases List.append_eq_append_iff.mp ht with ⟨m, _, ha⟩ | ⟨m, _, hc⟩
  · exact ⟨m, ha.symm⟩
  · have hlm : m.length = 0 := by
      have hlc := congrArg List.length hc
      rw [List.length_append] at hlc
      omega
    rw [List.eq_nil_of_length_eq_zero hlm, List.nil_append] at hc
    rw [hc]

/-- Core of the case-sensitivity argument: a name formed from any stem and a
non-lowercase case variant of an allowed extension matches no allowed
extension. -/
theorem no_match_of_case_variant (stem ext e : Str) (he : e ∈ allowed_extensions)
    (hlow : ext.map Char.toLower = e) (hne : ext ≠ e) :
    endsWithAny (stem ++ ext) allowed_extensions = false := by
  have hstable : ∀ x ∈ allowed_extensions, x.map Char.toLower = x := by decide
  have hpairs : ∀ x ∈ allowed_extensions, ∀ y ∈ allowed_extensions,
      y.length < x.length → ¬ (y <:+ x) := by decide
  have hlen_ext : ext.length = e.length := by rw [← hlow, List.length_map]
  have key : ∀ e2 ∈ allowed_extensions, ¬ (e2 <:+ stem ++ ext) := by
    intro e2 he2 hsuf
    have he2st := hstable e2 he2
    rcases le_or_lt e2.length ext.length with hle | hgt
    · have hs2 : e2 <:+ ext := suffix_of_append_of_length_le hsuf hle
      have hs3 : e2 <:+ e := by
        have hm := List.IsSuffix.map Char.toLower hs2
        rwa [he2st, hlow] at hm
      rcases eq_or_lt_of_le hle with heq | hlt
      · have hx : e2 = ext := List.IsSuffix.eq_of_length hs2 heq
        have hy : e2 = e := List.IsSuffix.eq_of_length hs3 (by rw [heq, hlen_ext])
        exact hne (by rw [← hx, hy])
      · exact hpairs e he e2 he2 (by omega) hs3
    · have hs2 : ext <:+ e2 := append_suffix_of_length_le hsuf (le_of_lt hgt)
      have hs3 : e <:+ e2 := by
        have hm := List.IsSuffix.map Char.toLower hs2
        rwa [he2st, hlow] at hm
      exact hpairs e2 he2 e he (by omega) hs3
  rw [endsWithAny, List.any_eq_false]
  intro e2 he2 hsuf
  exact key e2 he2 (List.isSuffixOf_iff_suffix.mp hsuf)

theorem total_eq (d : TaxDraws) :
    total d = d.bacteroidetes + d.firmicutes + d.proteobacteria + d.actinobacteria +
      d.verrucomicrobia + d.fusobacteria + d.spirochaetes + d.other := by
  simp [total, raw_taxa]; ring

theorem sumAbundance_eq (d : TaxDraws) :
    sumAbundance d =
      rheDiv (1000 * d.bacteroidetes) (total d) + rheDiv (1000 * d.firmicutes) (total d) +
      rheDiv (1000 * d.proteobacteria) (total d) + rheDiv (1000 * d.actinobacteria) (total d) +
      rheDiv (1000 * d.verrucomicrobia) (total d) + rheDiv (1000 * d.fusobacteria) (total d) +
      rheDiv (1000 * d.spirochaetes) (total d) + rheDiv (1000 * d.other) (total d) := by
  simp [sumAbundance, generate_taxonomy_data, raw_taxa]; ring

-- ===========================================================================
-- Claim theorems
-- ===========================================================================

/-- C1 counterexample: the admissible draw `(25, 20, 10, 5, 2, 1, 1, 5)`
produces rounded abundances summing to 99.8, outside the claimed tolerance
interval `[99.9, 100.1]` (values in tenths of a percent). -/
theorem taxonomy_sum_tolerance_counterexample :
    DrawsInRange cexDraws ∧ sumAbundance cexDraws = 998 ∧
    ¬ (999 ≤ sumAbundance cexDraws ∧ sumAbundance cexDraws ≤ 1001) := by
  decide

/-- C1 (amended): for every draw of the eight random integers within the
source ranges, the normalised and rounded abundances sum to a value in
`[99.6, 100.4]` (in tenths: `[996, 1004]`); the claimed tolerance `0.1` must
be widened to `0.4`, the sum of the eight per-taxon rounding errors of up to
`0.05` each. -/
theorem taxonomy_sum_within_rounding_bound (d : TaxDraws) (h : DrawsInRange d) :
    996 ≤ sumAbundance d ∧ sumAbundance d ≤ 1004 := by
  obtain ⟨⟨h1a, h1b⟩, ⟨h2a, h2b⟩, ⟨h3a, h3b⟩, ⟨h4a, h4b⟩,
    ⟨h5a, h5b⟩, ⟨h6a, h6b⟩, ⟨h7a, h7b⟩, ⟨h8a, h8b⟩⟩ := h
  have hT := total_eq d
  have hTpos : 0 < total d := by rw [hT]; linarith
  have b1 := rheDiv_bounds (1000 * d.bacteroidetes) (total d) hTpos
  have b2 := rheDiv_bounds (1000 * d.firmicutes) (total d) hTpos
  have b3 := rheDiv_bounds (1000 * d.proteobacteria) (total d) hTpos
  have b4 := rheDiv_bounds (1000 * d.actinobacteria) (total d) hTpos
  have b5 := rheDiv_bounds (1000 * d.verrucomicrobia) (total d) hTpos
  have b6 := rheDiv_bounds (1000 * d.fusobacteria) (total d) hTpos
  have b7 := rheDiv_bounds (1000 * d.spirochaetes) (total d) hTpos
  have b8 := rheDiv_bounds (1000 * d.other) (total d) hTpos
  have hs := sumAbundance_eq d
  constructor
  · have key : 2 * total d * 996 ≤ 2 * total d * sumAbundance d := by
      rw [hs]
      linarith [b1.1, b2.1, b3.1, b4.1, b5.1, b6.1, b7.1, b8.1, hT]
    exact le_of_mul_le_mul_left key (by linarith)
  · have key : 2 * total d * sumAbundance d ≤ 2 * total d * 1004 := by
      rw [hs]
      linarith [b1.2, b2.2, b3.2, b4.2, b5.2, b6.2, b7.2, b8.2, hT]
    exact le_of_mul_le_mul_left key (by linarith)

/-- Witness for the amended C1 theorem at a concrete admissible draw. -/
theorem taxonomy_sum_within_rounding_bound_witness :
    DrawsInRange someDraws ∧
      (996 ≤ sumAbundance someDraws ∧ sumAbundance someDraws ≤ 1004) :=
  ⟨by decide, taxonomy_sum_within_rounding_bound someDraws (by decide)⟩

/-- C2: for every identifier (including an absent one), the processing-status
handler returns status `completed`, overall progress 100, and exactly six
steps, each with status `completed` and progress 100; the identifier is only
echoed back, never validated. -/
theorem processing_status_always_complete (id : Option Str) :
    (processing_status id).status = "completed".toList ∧
    (processing_status id).overall_progress = 100 ∧
    (processing_status id).steps.length = 6 ∧
    (processing_status id).steps.map Step.status = List.replicate 6 "completed".toList ∧
    (processing_status id).steps.map Step.progress = List.replicate 6 100 ∧
    (processing_status id).processing_id = id :=
  ⟨rfl, rfl, rfl, rfl, rfl, rfl⟩

/-- C6: the novelty generator is a constant: it has no inputs and reads no
state, and its value is exactly the three fixed cluster records with ids
NC001, NC002, NC003 and the fixed confidence, similarity, species, abundance
and feature values. -/
theorem novelty_data_static :
    generate_novelty_data.length = 3 ∧
    generate_novelty_data.map NoveltyCluster.cluster_id =
      ["NC001".toList, "NC002".toList, "NC003".toList] ∧
    generate_novelty_data.map NoveltyCluster.confidence = [92/100, 87/100, 79/100] ∧
    generate_novelty_data.map NoveltyCluster.similarity = [34/100, 41/100, 28/100] ∧
    generate_novelty_data.map NoveltyCluster.potential_species =
      ["Unknown Bacteroidetes sp.".toList, "Unclassified Firmicutes".toList,
       "Novel Actinobacteria".toList] ∧
    generate_novelty_data.map NoveltyCluster.abundance = [23/10, 18/10, 9/10] ∧
    generate_novelty_data.map NoveltyCluster.unique_features =
      [["Novel metabolic pathway".toList, "16S rRNA variation".toList],
       ["Antimicrobial resistance genes".toList, "Biofilm formation".toList],
       ["Secondary metabolite production".toList, "Extreme pH tolerance".toList]] := by
  refine ⟨rfl, rfl, ?_, ?_, rfl, ?_, rfl⟩ <;> norm_num [generate_novelty_data]

/-- C5: for every draw of the 64 uniform values in `[0.1, 10.0]`, the heatmap
response has exactly 8 sample names and 8 taxon rows, each row has exactly 8
values, and every rounded value (in hundredths) lies in `[0.1, 10.0]`, i.e.
in `[10, 1000]` hundredths. -/
theorem heatmap_shape_and_range (u : Fin 8 → Fin 8 → ℚ)
    (h : ∀ i j, 1 / 10 ≤ u i j ∧ u i j ≤ 10) :
    (generate_heatmap_data u).samples.length = 8 ∧
    (generate_heatmap_data u).data.length = 8 ∧
    ((generate_heatmap_data u).data.map fun r => r.values.length) = List.replicate 8 8 ∧
    ∀ r ∈ (generate_heatmap_data u).data, ∀ v ∈ r.values, 10 ≤ v ∧ v ≤ 1000 := by
  refine ⟨rfl, rfl, rfl, ?_⟩
  intro r hr v hv
  rw [generate_heatmap_data] at hr
  simp only [List.mem_map] at hr
  obtain ⟨i, -, rfl⟩ := hr
  simp only [List.mem_map] at hv
  obtain ⟨j, -, rfl⟩ := hv
  obtain ⟨hu1, hu2⟩ := h i j
  constructor
  · exact le_rheRat 10 (100 * u i j) (by push_cast; linarith)
  · exact rheRat_le 1000 (100 * u i j) (by push_cast; linarith)

/-- Witness for C5 at the all-ones draw. -/
theorem heatmap_shape_and_range_witness :
    (∀ i j : Fin 8, 1 / 10 ≤ uWitness i j ∧ uWitness i j ≤ 10) ∧
    ((generate_heatmap_data uWitness).samples.length = 8 ∧
     (generate_heatmap_data uWitness).data.length = 8 ∧
     ((generate_heatmap_data uWitness).data.map fun r => r.values.length) =
       List.replicate 8 8 ∧
     ∀ r ∈ (generate_heatmap_data uWitness).data, ∀ v ∈ r.values, 10 ≤ v ∧ v ≤ 1000) :=
  ⟨fun _ _ => by norm_num [uWitness],
   heatmap_shape_and_range uWitness (fun _ _ => by norm_num [uWitness])⟩

/-- C3: an upload whose file name fails the allow-list check yields the 400
error response, and one that passes yields the success response whose
processing identifier is `proc_` followed by exactly five decimal digits. -/
theorem upload_extension_validation (f : UploadedFile) (session : Option UploadRecord)
    (rand : ℕ) (now : Str) (h1 : 10000 ≤ rand) (h2 : rand ≤ 99999) :
    (endsWithAny f.name allowed_extensions = false →
      (upload_fastq "POST".toList (some f) session rand now).1 =
        .error "Please upload a valid FASTQ file".toList 400) ∧
    (endsWithAny f.name allowed_extensions = true →
      (upload_fastq "POST".toList (some f) session rand now).1 =
        .success f.name f.size ("proc_".toList ++ intStr rand) ∧
      ("proc_".toList ++ intStr rand).take 5 = "proc_".toList ∧
      (intStr rand).length = 5 ∧
      (intStr rand).all Char.isDigit = true) := by
  constructor
  · intro hb
    simp [upload_fastq, hb]
  · intro hb
    refine ⟨by simp [upload_fastq, hb], ?_, intStr_length_five rand h1 h2,
      intStr_all_digits rand⟩
    have h5 : ("proc_".toList).length = 5 := rfl
    rw [← h5, List.take_left]

/-- Witness for C3: `sample.txt` is rejected with 400 and `sample.fastq` is
accepted with a `proc_`-prefixed identifier. -/
theorem upload_extension_validation_witness :
    ((upload_fastq "POST".toList (some ⟨"sample.txt".toList, 100⟩) none 12345 []).1 =
      .error "Please upload a valid FASTQ file".toList 400) ∧
    ((upload_fastq "POST".toList (some ⟨"sample.fastq".toList, 100⟩) none 12345 []).1 =
      .success "sample.fastq".toList 100 ("proc_".toList ++ intStr 12345)) :=
  ⟨(upload_extension_validation ⟨"sample.txt".toList, 100⟩ none 12345 []
      (by norm_num) (by norm_num)).1 (by decide),
   ((upload_extension_validation ⟨"sample.fastq".toList, 100⟩ none 12345 []
      (by norm_num) (by norm_num)).2 (by decide)).1⟩

/-- C9: the upload handler is atomic on error: whenever the response is an
error (missing file, wrong method, or disallowed extension), the session
entry is returned unchanged; the entry is written only on the success path,
and then only with the uploaded file's metadata. -/
theorem upload_session_atomic (method : Str) (fastq_file : Option UploadedFile)
    (session : Option UploadRecord) (rand : ℕ) (now : Str) :
    ((upload_fastq method fastq_file session rand now).1.isError = true →
      (upload_fastq method fastq_file session rand now).2 = session) ∧
    ((upload_fastq method fastq_file session rand now).1.isError = false →
      ∃ f, fastq_file = some f ∧
        (upload_fastq method fastq_file session rand now).2 =
          some ⟨f.name, f.size, now⟩) := by
  rcases fastq_file with _ | f
  · by_cases hm : method = "POST".toList <;>
      simp [upload_fastq, hm, UploadResponse.isError]
  · by_cases hm : method = "POST".toList
    · by_cases he : endsWithAny f.name allowed_extensions <;>
        simp [upload_fastq, hm, he, UploadResponse.isError]
    · have hep : upload_fastq method (some f) session rand now =
          (.error "No file uploaded".toList 400, session) := by
        rw [upload_fastq, if_neg hm]
      rw [hep]
      simp [UploadResponse.isError]

/-- Witness for C9: a rejected upload (bad extension) leaves the session
entry unchanged. -/
theorem upload_session_atomic_witness :
    (upload_fastq "POST".toList (some ⟨"data.txt".toList, 7⟩) none 11111 []).2 = none :=
  (upload_session_atomic "POST".toList (some ⟨"data.txt".toList, 7⟩) none 11111 []).1
    (by decide)

/-- C10: the extension check is case-sensitive: a file whose name is any stem
followed by an upper- or mixed-case variant of an allowed extension (a string
whose lowercasing is an allowed extension but which is not itself that
lowercase string) is rejected with the 400 error. -/
theorem upload_rejects_case_variant (stem ext e : Str) (he : e ∈ allowed_extensions)
    (hlow : ext.map Char.toLower = e) (hne : ext ≠ e) (size : ℕ)
    (session : Option UploadRecord) (rand : ℕ) (now : Str) :
    (upload_fastq "POST".toList (some ⟨stem ++ ext, size⟩) session rand now).1 =
      .error "Please upload a valid FASTQ file".toList 400 := by
  have hma := no_match_of_case_variant stem ext e he hlow hne
  simp [upload_fastq, hma]

/-- Witness for C10: `SAMPLE.FASTQ` is rejected. -/
theorem upload_rejects_case_variant_witness :
    (upload_fastq "POST".toList (some ⟨"SAMPLE".toList ++ ".FASTQ".toList, 100⟩)
        none 22222 []).1 =
      .error "Please upload a valid FASTQ file".toList 400 :=
  upload_rejects_case_variant "SAMPLE".toList ".FASTQ".toList ".fastq".toList
    (by decide) (by decide) (by decide) 100 none 22222 []

/-- C4: a `type=csv` report request returns status 200 with content type
`text/csv`, and a body of exactly nine newline-terminated rows: the header
`Sample,Taxon,Abundance` followed by one row per taxon of a freshly generated
taxonomy set (8 rows), each data row beginning with the hardcoded sample name
`Sample_1,`. -/
theorem download_csv_format (rl : Bool) (d : TaxDraws) :
    (download_report (some "csv".toList) rl d).status = 200 ∧
    (download_report (some "csv".toList) rl d).contentType = "text/csv".toList ∧
    (download_report (some "csv".toList) rl d).body = .text (csv_content d) ∧
    (csv_rows d).length = 9 ∧
    (csv_rows d).head? = some csv_header ∧
    ((csv_rows d).tail).length = 8 ∧
    ((csv_rows d).tail).all (fun r => List.isPrefixOf "Sample_1,".toList r) = true ∧
    (csv_content d).count '\n' = 9 := by
  refine ⟨rfl, rfl, rfl, rfl, rfl, rfl, ?_, ?_⟩
  · simp only [csv_rows, generate_taxonomy_data, raw_taxa, List.map_cons, List.map_nil,
      List.tail_cons, List.all_cons, List.all_nil, csv_row]
    simp [ List.isPrefixOf_iff_prefix]
  · have hc : ∀ k : ℤ, (fmtTenths k).count '\n' = 0 := fun k =>
      List.count_eq_zero.mpr (newline_not_mem_fmtTenths k)
    simp only [csv_content, csv_rows, generate_taxonomy_data, raw_taxa, csv_row,
      List.map_cons, List.map_nil, count_flatten_eq, List.count_append, List.count_cons,
      List.sum_cons, List.sum_nil, hc]
    decide

/-- C7: a non-CSV (document) report request made while reportlab is
unavailable returns exactly the 500 plain-text response whose message
instructs the user to install the missing dependency (it contains the
instruction `pip install reportlab`); no document is returned. -/
theorem download_missing_reportlab (ty : Option Str) (d : TaxDraws)
    (hty : ty ≠ some "csv".toList) :
    download_report ty false d =
      { status := 500, contentType := "text/plain".toList,
        body := .text reportlab_error_msg, disposition := none } ∧
    "pip install reportlab".toList <:+: reportlab_error_msg := by
  constructor
  · rcases ty with _ | s
    · rfl
    · have hs : ¬ (s = "csv".toList) := fun h => hty (by rw [h])
      rw [download_report]
      simp only [Option.getD_some]
      rw [if_neg hs]
      rfl
  · decide

/-- Witness for C7 at the explicit `type=pdf` request. -/
theorem download_missing_reportlab_witness :
    download_report (some "pdf".toList) false someDraws =
      { status := 500, contentType := "text/plain".toList,
        body := .text reportlab_error_msg, disposition := none } ∧
    "pip install reportlab".toList <:+: reportlab_error_msg :=
  download_missing_reportlab (some "pdf".toList) someDraws (by decide)

/-- C8: every report request whose `type` parameter is anything other than
exactly `csv` — including unrecognized values and an absent parameter — takes
the document (PDF) export branch; no validation or error response exists for
unknown type values, and the result is never the CSV response. -/
theorem download_unknown_type_takes_pdf_path (ty : Option Str) (rl : Bool) (d : TaxDraws)
    (hty : ty ≠ some "csv".toList) :
    download_report ty rl d = pdf_branch rl ∧
    (download_report ty rl d).contentType ≠ "text/csv".toList := by
  have h1 : download_report ty rl d = pdf_branch rl := by
    rcases ty with _ | s
    · rfl
    · have hs : ¬ (s = "csv".toList) := fun h => hty (by rw [h])
      rw [download_report]
      simp only [Option.getD_some]
      rw [if_neg hs]
  refine ⟨h1, ?_⟩
  rw [h1]
  rcases rl <;> decide

/-- Witness for C8 at the unrecognized value `type=xyz`. -/
theorem download_unknown_type_takes_pdf_path_witness :
    download_report (some "xyz".toList) true someDraws = pdf_branch true ∧
    (download_report (some "xyz".toList) true someDraws).contentType ≠
      "text/csv".toList :=
  download_unknown_type_takes_pdf_path (some "xyz".toList) true someDraws (by decide)
